import Mathlib

/-!
  # A shallow embedding of reactive-event-source (src/src/index.ts, src/src/error.ts)

  The repository wraps the browser EventSource primitive in an RxJS pipeline:
  a connection supervisor with retry and backoff, a per-event-type multiplexer
  over ReplaySubject(1) channels, a BehaviorSubject state tracker, and a
  teardown method. The embedding below translates the class state and its
  operations into explicit state passing; RxJS subject semantics (a stopped
  subject silently drops next, error and complete) are modelled on the subject
  values directly, and the share operator with a ReplaySubject(1) connector and
  all reset flags false is modelled as the connector state it maintains.
-/

/-- EventSourceError (src/src/error.ts): the constructor formats the public
message from the raw message and the attempt number, attempt defaulting to -1. -/
structure EventSourceError where
  message : String
  attempt : Int
  deriving DecidableEq, Repr

/-- The EventSourceError constructor: prefixes the message and appends the
attempt suffix exactly when attempt is greater than -1. -/
def mkEventSourceError (message : String) (attempt : Int := -1) : EventSourceError :=
  { message := "EventSource Error: " ++ message ++
      (if attempt > -1 then " - Attempt: " ++ toString attempt else ""),
    attempt := attempt }

/-- An error value travelling through the pipeline: either an EventSourceError
thrown by the supervisor code, or an arbitrary runtime error, which the code
distinguishes with an instanceof check (line 211). -/
inductive ErrPayload
  | es (e : EventSourceError)
  | js (message : String)
  deriving DecidableEq, Repr

/-- A message delivered on an event channel. -/
structure MessageEvent where
  eventType : String
  data : String
  deriving DecidableEq, Repr

/-- The status of a subject: live, completed, or errored with a payload. -/
inductive SubjStatus
  | active
  | completed
  | errored (e : ErrPayload)
  deriving DecidableEq, Repr

/-- ReplaySubject(1) used for each event channel (line 146): keeps the single
most recent message and replays it to every new subscriber; once completed or
errored, next is a silent no-op, and a new subscriber receives the buffer
followed by the terminal notification. -/
structure ReplaySubj where
  buffer : Option MessageEvent
  status : SubjStatus
  deriving DecidableEq, Repr

/-- subject.next on a ReplaySubject(1): buffers the value while the subject is
live, no-op once stopped. -/
def pushSubj (c : ReplaySubj) (ev : MessageEvent) : ReplaySubj :=
  match c.status with
  | .active => { c with buffer := some ev }
  | _ => c

/-- subject.complete guarded by the closed check (lines 124-126, 299-301):
completes a live subject, no-op on a stopped one. -/
def completeSubj (c : ReplaySubj) : ReplaySubj :=
  match c.status with
  | .active => { c with status := .completed }
  | _ => c

/-- subject.error (lines 270, 280): errors a live subject, silent no-op on a
stopped subject, as in RxJS 7. -/
def errorSubj (c : ReplaySubj) (e : ErrPayload) : ReplaySubj :=
  match c.status with
  | .active => { c with status := .errored e }
  | _ => c

/-- BehaviorSubject over readyState (line 36): holds the current value, records
whether the subject has been stopped, and logs every accepted next value in
order, which is exactly what a subscriber present from construction receives
after the initial current value. -/
structure BehaviorSubj where
  value : Nat
  stopped : Bool
  log : List Nat
  deriving DecidableEq, Repr

/-- BehaviorSubject.next: updates the current value and the delivery log while
live; a stopped subject drops the value silently. -/
def bsNext (b : BehaviorSubj) (v : Nat) : BehaviorSubj :=
  if b.stopped then b else { b with value := v, log := b.log ++ [v] }

/-- BehaviorSubject.complete: marks the subject stopped. -/
def bsComplete (b : BehaviorSubj) : BehaviorSubj :=
  { b with stopped := true }

/-- Feeding a list of next values to a BehaviorSubject in order. -/
def bsRun (b : BehaviorSubj) (vs : List Nat) : BehaviorSubj :=
  vs.foldl bsNext b

/-- The values an already attached subscriber receives while the subject
accepts the nexts of vs. -/
def bsDelivered (b : BehaviorSubj) (vs : List Nat) : List Nat :=
  (bsRun b vs).log.drop b.log.length

/-- What a subscriber arriving at state b observes over the subsequent nexts
of vs: the current value immediately, then every accepted transition; a
stopped BehaviorSubject delivers no value to a new subscriber. -/
def bsSubscriberSees (b : BehaviorSubj) (vs : List Nat) : List Nat :=
  if b.stopped then [] else b.value :: bsDelivered b vs

/-- The destroy subject (line 30), a Subject of void: next on a stopped
subject is dropped, so only the first close fires it. -/
structure UnitSubj where
  stopped : Bool
  fired : Bool
  deriving DecidableEq, Repr

/-- A connection handle (the external EventSource object): carries its
readyState, 0 CONNECTING, 1 OPEN, 2 CLOSED. -/
structure ESHandle where
  readyState : Nat
  deriving DecidableEq, Repr

/-- EventSource.close() on a handle: the handle moves to CLOSED. -/
def ESHandle.afterClose (_h : ESHandle) : ESHandle :=
  { readyState := 2 }

/-- A member call x.close() throws a TypeError when x is undefined. Used to
show where line 117 would fail without its guard. -/
def jsMethodCall (x : Option ESHandle) : Except String (Option ESHandle) :=
  match x with
  | none => Except.error "TypeError: cannot read properties of undefined"
  | some h => Except.ok (some h.afterClose)

/-- The optional chaining call written at line 117, lastEventSource?.close():
short-circuits to undefined instead of throwing when the field was never
assigned. -/
def jsOptMethodCall (x : Option ESHandle) : Except String (Option ESHandle) :=
  match x with
  | none => Except.ok none
  | some h => Except.ok (some h.afterClose)

/-- State of the shared connection stream (lines 242-249): share with a
ReplaySubject(1) connector and resetOnComplete, resetOnError and
resetOnRefCountZero all false. The connector, once connected, is never reset:
a terminated connector replays its buffer and then the stored terminal
notification to every later subscriber. terminal is none while live, some none
once completed, and some (some e) once errored. -/
structure SharedConn where
  connected : Bool
  buffer : Option ESHandle
  terminal : Option (Option ErrPayload)
  factoryRuns : Nat
  deriving DecidableEq, Repr

/-- Options (lines 18-24, constructor defaults at lines 47-54). Delays are in
milliseconds, modelled as rationals so that the jitter multiplication is exact. -/
structure EventSourceOptions where
  maxRetries : Nat
  initialDelay : ℚ
  maxDelay : ℚ
  connectionTimeout : ℚ
  withCredentials : Bool
  deriving DecidableEq, Repr

/-- The option defaults of the constructor (lines 47-54). -/
def defaultOptions : EventSourceOptions :=
  { maxRetries := 3, initialDelay := 1000, maxDelay := 10000,
    connectionTimeout := 15000, withCredentials := false }

/-- The instance state of the ReactiveEventSource class (lines 29-38), with
the environment capability flag (the presence of window.EventSource), a count
of EventSource constructions, and a ghost list of channel subjects the close
method detached from the map, which consumers still hold. -/
structure ReactiveEventSource where
  options : EventSourceOptions
  envHasEventSource : Bool
  destroyS : UnitSubj
  eventListenerCleanup : List String
  eventSubjects : List (String × ReplaySubj)
  subscriptions : List String
  lastEventSource : Option ESHandle
  readyStateSubject : BehaviorSubj
  sharedConn : SharedConn
  handlesCreated : Nat
  detachedSubjects : List (String × ReplaySubj)
  deriving DecidableEq, Repr

/-- The constructor (lines 45-57): merges options, builds the lazy shared
connection observable without connecting it, and starts the state cell at 2. -/
def mkReactiveEventSource (opts : EventSourceOptions) (envHasES : Bool) :
    ReactiveEventSource :=
  { options := opts,
    envHasEventSource := envHasES,
    destroyS := { stopped := false, fired := false },
    eventListenerCleanup := [],
    eventSubjects := [],
    subscriptions := [],
    lastEventSource := none,
    readyStateSubject := { value := 2, stopped := false, log := [] },
    sharedConn := { connected := false, buffer := none, terminal := none, factoryRuns := 0 },
    handlesCreated := 0,
    detachedSubjects := [] }

/-- Lookup in an insertion-ordered string-keyed map (Map.get). -/
def mapGet {α : Type} (m : List (String × α)) (k : String) : Option α :=
  match m with
  | [] => none
  | (k', v) :: rest => if k' = k then some v else mapGet rest k

/-- Map.set: overwrite in place, append when absent. -/
def mapSet {α : Type} (m : List (String × α)) (k : String) (v : α) :
    List (String × α) :=
  match m with
  | [] => [(k, v)]
  | (k', v') :: rest => if k' = k then (k, v) :: rest else (k', v') :: mapSet rest k v

/-- Update the entry at k in place when present. -/
def updateChannel (m : List (String × ReplaySubj)) (k : String)
    (f : ReplaySubj → ReplaySubj) : List (String × ReplaySubj) :=
  match m with
  | [] => []
  | (k', v) :: rest =>
      if k' = k then (k', f v) :: rest else (k', v) :: updateChannel rest k f

/-- Record a key in an insertion-ordered key set (Map.set with the key alone). -/
def insertKey (l : List String) (k : String) : List String :=
  if l.contains k then l else l ++ [k]

/-- One cleanup closure of eventListenerCleanup (lines 289-302): unsubscribe
and drop the tracked subscription for the type, then complete its subject if
still live. Acts on the pair of tracked subscription keys and the channel map. -/
def runCleanup (p : List String × List (String × ReplaySubj)) (t : String) :
    List String × List (String × ReplaySubj) :=
  (p.1.erase t, updateChannel p.2 t completeSubj)

/-- Run every stored cleanup closure in insertion order (lines 113-114). -/
def runCleanups (cleanup : List String) (p : List String × List (String × ReplaySubj)) :
    List String × List (String × ReplaySubj) :=
  cleanup.foldl runCleanup p

/-- The state close() leaves behind, given the handle value produced by the
guarded close call of line 117. Steps in source order: unsubscribe and clear
tracked subscriptions (109-110), run and clear the cleanup closures (113-114),
close the handle (117), push 2 into the state cell (120), complete and clear
every event subject (123-128) — the cleared subjects, still held by consumers,
move to the ghost list — fire and complete destroy (131-132), which completes
the live shared pipeline and runs its finalize, closing the handle again and
pushing a final 2 (233-240), and complete the state cell (133). -/
def closeWithHandle (s : ReactiveEventSource) (h : Option ESHandle) :
    ReactiveEventSource :=
  let cleaned := runCleanups s.eventListenerCleanup ([], s.eventSubjects)
  let chansFinal := cleaned.2.map (fun p => (p.1, completeSubj p.2))
  let pipelineLive := s.sharedConn.connected && s.sharedConn.terminal.isNone
  { options := s.options,
    envHasEventSource := s.envHasEventSource,
    destroyS := { stopped := true, fired := s.destroyS.fired || !s.destroyS.stopped },
    eventListenerCleanup := [],
    eventSubjects := [],
    subscriptions := [],
    lastEventSource := if pipelineLive then h.map ESHandle.afterClose else h,
    readyStateSubject :=
      bsComplete (if pipelineLive then bsNext (bsNext s.readyStateSubject 2) 2
                  else bsNext s.readyStateSubject 2),
    sharedConn := { s.sharedConn with
      terminal := if pipelineLive then some none else s.sharedConn.terminal },
    handlesCreated := s.handlesCreated,
    detachedSubjects := s.detachedSubjects ++ chansFinal }

/-- close() (lines 107-134). The only member access that could throw is the
handle close of line 117, which the source guards with optional chaining. -/
def close (s : ReactiveEventSource) : Except String ReactiveEventSource :=
  match jsOptMethodCall s.lastEventSource with
  | .error msg => .error msg
  | .ok h => .ok (closeWithHandle s h)

/-- The pure result of close(), used to state its equations. -/
def closePure (s : ReactiveEventSource) : ReactiveEventSource :=
  closeWithHandle s (s.lastEventSource.map ESHandle.afterClose)

/-- The Unsupported failure (line 166). -/
def unsupportedError : EventSourceError :=
  mkEventSourceError "EventSource is not supported in this environment"

/-- The synchronous body of the defer factory (lines 163-178), run when the
share connector first connects: check the capability and fail the connector
with Unsupported if absent; otherwise close any previous handle, construct a
fresh EventSource in CONNECTING state and push its readyState into the state
cell. Returns the error delivered synchronously to the connecting subscriber. -/
def connectFactory (s : ReactiveEventSource) : ReactiveEventSource × Option ErrPayload :=
  let s1 := { s with sharedConn := { s.sharedConn with
                connected := true, factoryRuns := s.sharedConn.factoryRuns + 1 } }
  if !s1.envHasEventSource then
    ({ s1 with sharedConn := { s1.sharedConn with
        terminal := some (some (.es unsupportedError)) } },
     some (.es unsupportedError))
  else
    let s2 := match s1.lastEventSource with
      | some h => { s1 with lastEventSource := some h.afterClose }
      | none => s1
    let h : ESHandle := { readyState := 0 }
    ({ s2 with lastEventSource := some h,
               handlesCreated := s2.handlesCreated + 1,
               readyStateSubject := bsNext s2.readyStateSubject h.readyState },
     none)

/-- One subscription to the shared connection stream (lines 242-249): a
terminated connector replays its buffer and its terminal notification without
reconnecting; a live connected connector replays its buffer; an unconnected
connector connects, running the defer factory. Returns the new state, the
handles replayed to the subscriber, and the terminal notification it receives,
some none for complete and some (some e) for error. -/
def subscribeShared (s : ReactiveEventSource) :
    ReactiveEventSource × List ESHandle × Option (Option ErrPayload) :=
  match s.sharedConn.terminal with
  | some term => (s, s.sharedConn.buffer.toList, some term)
  | none =>
    if s.sharedConn.connected then (s, s.sharedConn.buffer.toList, none)
    else
      match connectFactory s with
      | (s', some e) => (s', [], some (some e))
      | (s', none) => (s', [], none)

/-- The state change of one subscription to the shared connection stream. -/
def subscribeSharedState (s : ReactiveEventSource) : ReactiveEventSource :=
  (subscribeShared s).1

/-- Error an event channel in place (subject.error at line 280). -/
def errorChannel (s : ReactiveEventSource) (t : String) (e : ErrPayload) :
    ReactiveEventSource :=
  { s with eventSubjects := updateChannel s.eventSubjects t (errorSubj · e) }

/-- Complete an event channel in place (subject.complete at line 282). -/
def completeChannel (s : ReactiveEventSource) (t : String) : ReactiveEventSource :=
  { s with eventSubjects := updateChannel s.eventSubjects t completeSubj }

/-- setupEventListener (lines 257-303): subscribe the forwarder for one event
type to the shared connection stream. A destroy subject that has already
completed emits nothing to a late subscriber, so the takeUntil of line 260
does not stop this subscription after close. Each replayed handle re-notifies
the state cell with its readyState (line 263); a terminal notification from
the shared stream is forwarded into the channel subject (lines 280-282); the
subscription and its cleanup closure are then tracked (lines 286, 289). -/
def setupEventListener (s : ReactiveEventSource) (t : String) : ReactiveEventSource :=
  match subscribeShared s with
  | (s1, replayed, term) =>
    let bs2 := replayed.foldl (fun b h => bsNext b h.readyState) s1.readyStateSubject
    let s2 := { s1 with readyStateSubject := bs2 }
    let s3 := match term with
      | some (some e) => errorChannel s2 t e
      | some none => completeChannel s2 t
      | none => s2
    { s3 with subscriptions := insertKey s3.subscriptions t,
              eventListenerCleanup := insertKey s3.eventListenerCleanup t }

/-- The method on(eventType) (lines 143-154): create-if-absent a ReplaySubject(1) channel
for the type, set up its forwarder, and return the channel subject. -/
def onEvent (s : ReactiveEventSource) (eventType : String) :
    ReactiveEventSource × ReplaySubj :=
  match mapGet s.eventSubjects eventType with
  | some subj => (s, subj)
  | none =>
    let subj : ReplaySubj := { buffer := none, status := .active }
    let s1 := { s with eventSubjects := mapSet s.eventSubjects eventType subj }
    let s2 := setupEventListener s1 eventType
    (s2, (mapGet s2.eventSubjects eventType).getD subj)

/-- An inbound raw event of the given type on the live handle, forwarded by
the fromEvent listener of the forwarder (lines 265, 278) into the channel
subject, provided a forwarder for the type is subscribed. -/
def deliverRaw (s : ReactiveEventSource) (t : String) (ev : MessageEvent) :
    ReactiveEventSource :=
  if s.subscriptions.contains t then
    { s with eventSubjects := updateChannel s.eventSubjects t (pushSubj · ev) }
  else s

/-- The open signal of the handle while the pipeline is live: the primitive
moves its readyState to OPEN before dispatching, open$ pushes 1 into the state
cell and emits the handle (lines 180-185), the share connector buffers it, and
the switchMap of every subscribed forwarder re-notifies the state cell with
the handle readyState (line 263). -/
def openFires (s : ReactiveEventSource) : ReactiveEventSource :=
  if s.sharedConn.connected && s.sharedConn.terminal.isNone then
    match s.lastEventSource with
    | none => s
    | some _ =>
      let h1 : ESHandle := { readyState := 1 }
      let s1 := { s with lastEventSource := some h1,
                         readyStateSubject := bsNext s.readyStateSubject 1,
                         sharedConn := { s.sharedConn with buffer := some h1 } }
      let bs1 := s1.subscriptions.foldl (fun b _t => bsNext b h1.readyState) s1.readyStateSubject
      { s1 with readyStateSubject := bs1 }
  else s

/-- The asynchronous error signal of the handle, as observed by error$
(lines 187-196): push the handle readyState into the state cell; while the
handle is still CONNECTING the attempt fails with an EventSourceError,
otherwise the signal is swallowed at the transport layer (EMPTY). -/
def errorSignal (s : ReactiveEventSource) :
    ReactiveEventSource × Option EventSourceError :=
  match s.lastEventSource with
  | none => (s, none)
  | some h =>
    let s1 := { s with readyStateSubject := bsNext s.readyStateSubject h.readyState }
    if h.readyState = 0 then
      (s1, some (mkEventSourceError "Initial connection failed"))
    else (s1, none)

/-- The catchError handler of the forwarder (lines 266-273): the exception is
logged, pushed into the channel subject as its error, and the inner stream is
replaced by EMPTY, so only this channel ends. Returns the log line. -/
def listenerStreamError (s : ReactiveEventSource) (t : String) (err : String) :
    ReactiveEventSource × List String :=
  (errorChannel s t (.js err), ["Error in \"" ++ t ++ "\" event: " ++ err])

/-- A terminal error of the shared pipeline: finalize closes the handle and
pushes a final 2 (lines 233-240), the connector stores the error, and the
error handler of every forwarder subscription errors its channel subject
(line 280). -/
def pipelineFail (s : ReactiveEventSource) (e : ErrPayload) : ReactiveEventSource :=
  { s with lastEventSource := s.lastEventSource.map ESHandle.afterClose,
           readyStateSubject := bsNext s.readyStateSubject 2,
           sharedConn := { s.sharedConn with terminal := some (some e) },
           eventSubjects := s.eventSubjects.map (fun p => (p.1, errorSubj p.2 e)) }

/-- The outcome of one connection attempt as the retry operator sees it: the
attempt either emits a handle (open won the race) or errors. -/
inductive AttemptOutcome
  | ok (h : ESHandle)
  | fail (e : ErrPayload)
  deriving DecidableEq, Repr

/-- The decision of the delay callback of retry (lines 210-230): either wait
for a timer and resubscribe, or rethrow a terminal error. Each decision also
carries the readyState values it pushes into the state cell. -/
inductive DelayDecision
  | retryTimer (d : ℚ) (stateEmits : List Nat)
  | terminal (e : ErrPayload) (stateEmits : List Nat)
  deriving DecidableEq, Repr

/-- The delay callback (lines 210-230), invoked by rxjs retry with the error
and the one-based retry count. For an EventSourceError: once the count has
reached maxRetries, push CLOSED and rethrow a fresh EventSourceError built
from the formatted message of the caught one, with the attempt argument left
at its default -1 (line 215); otherwise compute the full-jitter backoff delay
r times min(initialDelay * 2 ^ attempt, maxDelay) with r the uniform draw of
Math.random(), push CONNECTING, and wait (lines 218-226). Any other error is
rethrown as the Unrecoverable EventSourceError carrying the attempt count
(line 229). -/
def retryDelayCallback (opts : EventSourceOptions) (error : ErrPayload)
    (attempt : Nat) (r : ℚ) : DelayDecision :=
  match error with
  | .es e =>
    if opts.maxRetries ≤ attempt then
      .terminal (.es (mkEventSourceError e.message)) [2]
    else
      let baseDelay := min (opts.initialDelay * 2 ^ attempt) opts.maxDelay
      .retryTimer (r * baseDelay) [0]
  | .js _ => .terminal (.es (mkEventSourceError "Unrecoverable EventSource error" attempt)) []

/-- The terminal result of a pipeline run: still pending, a handle emitted,
or a terminal error. -/
inductive RunOutcome
  | pending
  | success (h : ESHandle)
  | failure (e : ErrPayload)
  deriving DecidableEq, Repr

/-- The observable trace of one run of the retried pipeline: the backoff
delays actually waited, the readyState values pushed by the retry callback
and by finalize, and the terminal result. -/
structure RunResult where
  delays : List ℚ
  stateEmits : List Nat
  result : RunOutcome
  deriving DecidableEq, Repr

/-- The retried pipeline (lines 206-241) under rxjs retry semantics, driven by
the successive attempt outcomes and the successive Math.random() draws, with
soFar the number of errors already consumed by retry. With count maxRetries
equal to zero, retry is the identity and the first error passes through; on
the n-th error with n at most the count, the callback is invoked with the
one-based count n; a timer decision resubscribes, a throw becomes the terminal
error. Finalize (lines 233-240) pushes a final CLOSED on every terminal error. -/
def runRetryGo (opts : EventSourceOptions) :
    List AttemptOutcome → List ℚ → Nat → RunResult
  | [], _, _ => { delays := [], stateEmits := [], result := .pending }
  | .ok h :: _, _, _ => { delays := [], stateEmits := [], result := .success h }
  | .fail e :: rest, rands, soFar =>
    if opts.maxRetries = 0 then
      { delays := [], stateEmits := [2], result := .failure e }
    else if soFar < opts.maxRetries then
      match retryDelayCallback opts e (soFar + 1) (rands.headD 0) with
      | .retryTimer d emits =>
        let rr := runRetryGo opts rest rands.tail (soFar + 1)
        { delays := d :: rr.delays, stateEmits := emits ++ rr.stateEmits,
          result := rr.result }
      | .terminal e' emits =>
        { delays := [], stateEmits := emits ++ [2], result := .failure e' }
    else
      { delays := [], stateEmits := [2], result := .failure e }

/-- A full run of the retried pipeline from a fresh subscription. -/
def runRetry (opts : EventSourceOptions) (outcomes : List AttemptOutcome)
    (rands : List ℚ) : RunResult :=
  runRetryGo opts outcomes rands 0

/-- The number of leading attempts that fail with an EventSourceError, the
shape of a run that keeps hitting the CONNECTING-state failure. -/
def leadingConnectFailures : List AttemptOutcome → Nat
  | .fail (.es _) :: rest => leadingConnectFailures rest + 1
  | _ => 0

/-- A connected and opened instance: default options, one message channel, and
the open signal received. Used as a concrete witness state. -/
def openedState : ReactiveEventSource :=
  openFires (onEvent (mkReactiveEventSource defaultOptions true) "message").1

/-- The opened instance with an error channel also requested. -/
def openedWithErrorChannel : ReactiveEventSource :=
  (onEvent openedState "error").1

/-- Scenario B of the spec: default options, a state-stream subscriber from
construction, one event channel requested, and the handle reaching OPEN. -/
def scenarioBFinal : ReactiveEventSource := openedState

/-- The readyState values the scenario B subscriber observes: the current
value at subscription, then every accepted transition. -/
def scenarioBObserved : List Nat :=
  (mkReactiveEventSource defaultOptions true).readyStateSubject.value ::
    scenarioBFinal.readyStateSubject.log

/-! ## Helper lemmas on the subject and map models -/

/-- Closing a handle twice is the same as closing it once. -/
theorem ESHandle.afterClose_afterClose (h : ESHandle) :
    h.afterClose.afterClose = h.afterClose := rfl

/-- Composing the close of a handle with itself collapses to one close. -/
theorem afterClose_comp :
    ESHandle.afterClose ∘ ESHandle.afterClose = ESHandle.afterClose := rfl

/-- Mapping the close of a handle over an option twice collapses to once. -/
theorem map_afterClose_idem (x : Option ESHandle) :
    (x.map ESHandle.afterClose).map ESHandle.afterClose = x.map ESHandle.afterClose := by
  cases x <;> rfl

/-- next on a stopped BehaviorSubject is a no-op. -/
theorem bsNext_stopped (b : BehaviorSubj) (v : Nat) (h : b.stopped = true) :
    bsNext b v = b := by
  simp [bsNext, h]

/-- complete on a BehaviorSubject is idempotent. -/
theorem bsComplete_bsComplete (b : BehaviorSubj) :
    bsComplete (bsComplete b) = bsComplete b := rfl

/-- A completed BehaviorSubject is stopped. -/
theorem bsComplete_stopped (b : BehaviorSubj) : (bsComplete b).stopped = true := rfl

/-- Map.get after Map.set at the same key returns the set value. -/
theorem mapGet_mapSet_self {α : Type} (m : List (String × α)) (k : String) (v : α) :
    mapGet (mapSet m k v) k = some v := by
  induction m with
  | nil => simp [mapSet, mapGet]
  | cons p rest ih =>
    by_cases hk : p.1 = k
    · simp [mapSet, hk, mapGet]
    · simp [mapSet, hk, mapGet, ih]

/-- Updating a channel map at a key maps the stored value at that key. -/
theorem mapGet_updateChannel_self (m : List (String × ReplaySubj)) (t : String)
    (f : ReplaySubj → ReplaySubj) :
    mapGet (updateChannel m t f) t = (mapGet m t).map f := by
  induction m with
  | nil => simp [updateChannel, mapGet]
  | cons p rest ih =>
    by_cases hk : p.1 = t
    · simp [updateChannel, hk, mapGet]
    · simp [updateChannel, hk, mapGet, ih]

/-- Updating a channel map at one key leaves every other key unchanged. -/
theorem mapGet_updateChannel_ne (m : List (String × ReplaySubj)) {t t' : String}
    (h : t ≠ t') (f : ReplaySubj → ReplaySubj) :
    mapGet (updateChannel m t f) t' = mapGet m t' := by
  have hs : ¬ t = t' := h
  have hs2 : ¬ t' = t := fun hh => h hh.symm
  induction m with
  | nil => simp [updateChannel, mapGet]
  | cons p rest ih =>
    by_cases hk : p.1 = t
    · simp [updateChannel, hk, mapGet, hs, hs2]
    · by_cases hk' : p.1 = t'
      · simp [updateChannel, hk, mapGet, hk', hs, hs2]
      · simp [updateChannel, hk, mapGet, hk', ih]

/-- Erroring every channel subject maps the lookup pointwise. -/
theorem mapGet_errorAll (m : List (String × ReplaySubj)) (e : ErrPayload) (t : String) :
    mapGet (m.map (fun p => (p.1, errorSubj p.2 e))) t
      = (mapGet m t).map (errorSubj · e) := by
  induction m with
  | nil => simp [mapGet]
  | cons p rest ih =>
    by_cases hk : p.1 = t
    · simp [mapGet, hk]
    · simp [mapGet, hk, ih]

/-- A live BehaviorSubject accepts a whole list of nexts, appending them to
its delivery log and staying live. -/
theorem bsRun_log (vs : List Nat) (b : BehaviorSubj) (h : b.stopped = false) :
    (bsRun b vs).log = b.log ++ vs ∧ (bsRun b vs).stopped = false := by
  induction vs generalizing b with
  | nil => simp [bsRun, h]
  | cons v rest ih =>
    have hnext : bsNext b v = { b with value := v, log := b.log ++ [v] } := by
      simp [bsNext, h]
    have := ih (bsNext b v) (by simp [hnext, h])
    constructor
    · rw [bsRun, List.foldl_cons, ← bsRun, this.1, hnext]
      simp
    · rw [bsRun, List.foldl_cons, ← bsRun, this.2]

/-- A subscriber arriving at a live BehaviorSubject sees the current value
followed by exactly the subsequent nexts. -/
theorem bsSubscriberSees_eq (b : BehaviorSubj) (vs : List Nat) (h : b.stopped = false) :
    bsSubscriberSees b vs = b.value :: vs := by
  simp [bsSubscriberSees, bsDelivered, h, (bsRun_log vs b h).1]

/-- close never throws: the one member access of line 117 is guarded by
optional chaining, so close always returns the pure teardown state. -/
theorem close_eq_ok (s : ReactiveEventSource) : close s = Except.ok (closePure s) := by
  cases h : s.lastEventSource <;> simp [close, closePure, jsOptMethodCall, h]

/-- The teardown state is a fixed point of close: a second close changes
nothing. -/
theorem closePure_idem (s : ReactiveEventSource) : closePure (closePure s) = closePure s := by
  cases hb : s.sharedConn.connected && s.sharedConn.terminal.isNone <;>
    simp [closePure, closeWithHandle, runCleanups, hb, bsComplete, bsNext,
      map_afterClose_idem, afterClose_comp, Function.comp_assoc]

/-- A subscription to the shared connection stream leaves the state unchanged
once the connector has connected: only the first subscriber runs the factory. -/
theorem subscribeSharedState_of_connected (s : ReactiveEventSource)
    (h : s.sharedConn.connected = true) : subscribeSharedState s = s := by
  unfold subscribeSharedState subscribeShared
  cases hterm : s.sharedConn.terminal with
  | some t => simp
  | none => simp [h]

/-! ## Claim theorems -/

/-- C2: close() is idempotent. A first call raises no error and returns the
teardown state; a second call raises no error and returns the very same state,
so every observable teardown effect — the cleared subscriptions and cleanup
closures, the closed handle, the final CLOSED value and log of the state
subject, the completed channels recorded in the ghost list, the fired and
completed destroy subject, the completed connector — happens exactly once, on
the first call. -/
theorem claim2_close_idempotent (s : ReactiveEventSource) :
    close s = Except.ok (closePure s)
    ∧ close (closePure s) = Except.ok (closePure s) :=
  ⟨close_eq_ok s, by rw [close_eq_ok (closePure s), closePure_idem]⟩

/-- C10: close() on an instance whose on() was never called does not throw —
the undefined last handle is guarded by the optional chaining of line 117 —
and tears down normally: no handle exists, readyState ends at 2 with exactly
one CLOSED notification delivered, the state subject completes, and the
destroy subject fires and completes. -/
theorem claim10_close_never_connected (opts : EventSourceOptions) (env : Bool) :
    close (mkReactiveEventSource opts env)
        = Except.ok (closePure (mkReactiveEventSource opts env))
    ∧ (closePure (mkReactiveEventSource opts env)).lastEventSource = none
    ∧ (closePure (mkReactiveEventSource opts env)).readyStateSubject.value = 2
    ∧ (closePure (mkReactiveEventSource opts env)).readyStateSubject.stopped = true
    ∧ (closePure (mkReactiveEventSource opts env)).readyStateSubject.log = [2]
    ∧ (closePure (mkReactiveEventSource opts env)).destroyS
        = { stopped := true, fired := true } :=
  ⟨close_eq_ok _, rfl, rfl, rfl, rfl, rfl⟩

/-- C1, evaluation at the failing input: after close() on a fresh instance,
on("message") does not return an already-completed empty stream and is not
resource-free — it creates a new channel subject that is still active (it
never completes), registers a new forwarder subscription and cleanup entry,
and its subscription connects the shared stream, constructing a brand-new
EventSource after teardown. -/
theorem claim1_on_after_close_creates_resources :
    close (mkReactiveEventSource defaultOptions true)
        = Except.ok (closePure (mkReactiveEventSource defaultOptions true))
    ∧ (onEvent (closePure (mkReactiveEventSource defaultOptions true))
        "message").1.eventSubjects.length = 1
    ∧ (onEvent (closePure (mkReactiveEventSource defaultOptions true))
        "message").2.status = SubjStatus.active
    ∧ (onEvent (closePure (mkReactiveEventSource defaultOptions true))
        "message").1.subscriptions = ["message"]
    ∧ (onEvent (closePure (mkReactiveEventSource defaultOptions true))
        "message").1.handlesCreated = 1
    ∧ (onEvent (closePure (mkReactiveEventSource defaultOptions true))
        "message").1.lastEventSource = some { readyState := 0 } :=
  ⟨close_eq_ok _, by decide, by decide, by decide, by decide, by decide⟩

/-- C6: the shared connection stream is lazy — a fresh instance has opened no
transport connection and holds no handle — it is shared — any positive number
of subscriptions runs the defer factory once and opens one EventSource — and
it replays its buffered handle of capacity 1 to a late subscriber without
touching the state, so subscribing further event types never re-opens the
transport. -/
theorem claim6_lazy_shared_replay (opts : EventSourceOptions) (n : Nat)
    (s : ReactiveEventSource) (h : ESHandle) :
    (mkReactiveEventSource opts true).handlesCreated = 0
    ∧ (mkReactiveEventSource opts true).lastEventSource = none
    ∧ (subscribeSharedState^[n + 1] (mkReactiveEventSource opts true)).handlesCreated = 1
    ∧ (subscribeSharedState^[n + 1]
        (mkReactiveEventSource opts true)).sharedConn.factoryRuns = 1
    ∧ (s.sharedConn.connected = true → s.sharedConn.terminal = none →
        s.sharedConn.buffer = some h → subscribeShared s = (s, [h], none)) := by
  refine ⟨rfl, rfl, ?_, ?_, ?_⟩
  · rw [Function.iterate_succ_apply,
      Function.iterate_fixed (subscribeSharedState_of_connected _ rfl) n]
    rfl
  · rw [Function.iterate_succ_apply,
      Function.iterate_fixed (subscribeSharedState_of_connected _ rfl) n]
    rfl
  · intro hc hterm hbuf
    unfold subscribeShared
    rw [hterm, hc, hbuf]
    simp

/-- C6 witness: the opened instance has a connected live connector buffering
the OPEN handle, and a further subscription replays exactly that handle with
no state change. -/
theorem claim6_witness :
    openedState.sharedConn.connected = true
    ∧ openedState.sharedConn.terminal = none
    ∧ openedState.sharedConn.buffer = some { readyState := 1 }
    ∧ subscribeShared openedState = (openedState, [{ readyState := 1 }], none) :=
  ⟨by decide, by decide, by decide,
    (claim6_lazy_shared_replay defaultOptions 0 openedState { readyState := 1 }).2.2.2.2
      (by decide) (by decide) (by decide)⟩

/-- C9: in an environment without EventSource, the first subscription to the
shared stream fails immediately with the Unsupported EventSourceError, opens
no transport and runs the factory exactly once; the first on() hands the
consumer a channel already errored with Unsupported; and any number of later
subscriptions replay the identical stored error — the factory never reruns and
the backoff loop never retries the failure, which reaches subscribers with its
original message unwrapped by the retry callback. -/
theorem claim9_unsupported_once_no_retry (opts : EventSourceOptions) (n : Nat) :
    (subscribeShared (mkReactiveEventSource opts false)).2.2
        = some (some (.es unsupportedError))
    ∧ (subscribeSharedState (mkReactiveEventSource opts false)).handlesCreated = 0
    ∧ (subscribeSharedState (mkReactiveEventSource opts false)).sharedConn.factoryRuns = 1
    ∧ (onEvent (mkReactiveEventSource opts false) "message").2.status
        = SubjStatus.errored (.es unsupportedError)
    ∧ (subscribeSharedState^[n + 1]
        (mkReactiveEventSource opts false)).sharedConn.factoryRuns = 1
    ∧ subscribeShared (subscribeSharedState (mkReactiveEventSource opts false))
        = (subscribeSharedState (mkReactiveEventSource opts false), [],
            some (some (.es unsupportedError))) := by
  refine ⟨rfl, rfl, rfl, rfl, ?_, rfl⟩
  rw [Function.iterate_succ_apply,
    Function.iterate_fixed (subscribeSharedState_of_connected _ rfl) n]
  rfl

/-- C5: the asynchronous error signal of the handle is fatal for the current
attempt — it produces the EventSourceError fed to the retry path — exactly
when it fires while the handle is CONNECTING (readyState 0); in every case the
observed readyState is pushed to the state cell; and when it fires after the
handle reached OPEN (readyState 1) the pipeline does not fail — no error is
raised, the connector and the channels are untouched — while the raw signal is
still forwarded to the channel of the "error" event type through its live
forwarder. -/
theorem claim5_fatal_iff_connecting (s : ReactiveEventSource) (h : ESHandle)
    (ev : MessageEvent) (c : ReplaySubj)
    (hlast : s.lastEventSource = some h) :
    ((errorSignal s).2.isSome ↔ h.readyState = 0)
    ∧ (h.readyState = 0 →
        (errorSignal s).2 = some (mkEventSourceError "Initial connection failed"))
    ∧ (errorSignal s).1.readyStateSubject = bsNext s.readyStateSubject h.readyState
    ∧ (h.readyState = 1 →
        (errorSignal s).2 = none
        ∧ (errorSignal s).1.sharedConn = s.sharedConn
        ∧ (errorSignal s).1.eventSubjects = s.eventSubjects
        ∧ (mapGet s.eventSubjects "error" = some c → c.status = .active →
            s.subscriptions.contains "error" = true →
            mapGet (deliverRaw s "error" ev).eventSubjects "error"
              = some { c with buffer := some ev })) := by
  refine ⟨?_, ?_, ?_, ?_⟩
  · by_cases h0 : h.readyState = 0 <;> simp [errorSignal, hlast, h0]
  · intro h0; simp [errorSignal, hlast, h0]
  · by_cases h0 : h.readyState = 0 <;> simp [errorSignal, hlast, h0]
  · intro h1
    have h0 : ¬ h.readyState = 0 := by rw [h1]; decide
    refine ⟨by simp [errorSignal, hlast, h0], by simp [errorSignal, hlast, h0],
      by simp [errorSignal, hlast, h0], ?_⟩
    intro hch hact hsub
    rw [deliverRaw, if_pos hsub]
    show mapGet (updateChannel s.eventSubjects "error" (pushSubj · ev)) "error" = _
    rw [mapGet_updateChannel_self, hch]
    simp [pushSubj, hact]

/-- C5 witness: on the opened instance with an error channel, the handle is
OPEN, so the error signal is non-fatal and a raw error event is still
delivered into the error channel buffer. -/
theorem claim5_witness :
    openedWithErrorChannel.lastEventSource = some { readyState := 1 }
    ∧ ¬ (errorSignal openedWithErrorChannel).2.isSome
    ∧ mapGet (deliverRaw openedWithErrorChannel "error"
          { eventType := "error", data := "blip" }).eventSubjects "error"
        = some { buffer := some { eventType := "error", data := "blip" },
                 status := .active } := by
  have h := claim5_fatal_iff_connecting openedWithErrorChannel { readyState := 1 }
    { eventType := "error", data := "blip" } { buffer := none, status := .active } (by decide)
  refine ⟨by decide, ?_, ?_⟩
  · intro hs
    exact absurd (h.1.mp hs) (by decide)
  · exact (h.2.2.2 rfl).2.2.2 (by decide) (by decide) (by decide)

/-- C7: an exception while handling an inbound message of one event type is
caught and logged by the catchError of the forwarder, and it ends only that
channel: the subject of that type errors, while every other channel, the
tracked subscriptions, the shared connection state, the handle and the state
cell are left exactly as they were. -/
theorem claim7_listener_error_isolated (s : ReactiveEventSource)
    (t t' : String) (err : String) (hne : t ≠ t') :
    mapGet (listenerStreamError s t err).1.eventSubjects t'
        = mapGet s.eventSubjects t'
    ∧ (listenerStreamError s t err).1.sharedConn = s.sharedConn
    ∧ (listenerStreamError s t err).1.subscriptions = s.subscriptions
    ∧ (listenerStreamError s t err).1.lastEventSource = s.lastEventSource
    ∧ (listenerStreamError s t err).1.readyStateSubject = s.readyStateSubject
    ∧ (∀ c, mapGet s.eventSubjects t = some c → c.status = .active →
        mapGet (listenerStreamError s t err).1.eventSubjects t
          = some { c with status := .errored (.js err) })
    ∧ (listenerStreamError s t err).2 ≠ [] := by
  refine ⟨?_, rfl, rfl, rfl, rfl, ?_, by simp [listenerStreamError]⟩
  · exact mapGet_updateChannel_ne s.eventSubjects hne _
  · intro c hc hact
    show mapGet (updateChannel s.eventSubjects t (errorSubj · (.js err))) t = _
    rw [mapGet_updateChannel_self, hc]
    simp [errorSubj, hact]

/-- C7 witness: a listener exception on the message channel of the opened
instance errors only that channel; the error channel and the shared pipeline
state survive unchanged. -/
theorem claim7_witness :
    mapGet (listenerStreamError openedWithErrorChannel "message" "boom").1.eventSubjects
        "error" = mapGet openedWithErrorChannel.eventSubjects "error"
    ∧ (listenerStreamError openedWithErrorChannel "message" "boom").1.sharedConn
        = openedWithErrorChannel.sharedConn
    ∧ mapGet (listenerStreamError openedWithErrorChannel "message" "boom").1.eventSubjects
        "message" = some { buffer := none, status := .errored (.js "boom") } := by
  have h := claim7_listener_error_isolated openedWithErrorChannel "message" "error" "boom"
    (by decide)
  exact ⟨h.1, h.2.1, h.2.2.2.2.2.1 { buffer := none, status := .active }
    (by decide) (by decide)⟩

/-- C8 counterexample: in scenario B the state-stream subscriber does not
observe exactly [2, 0, 1] — the full observed sequence is [2, 0, 1, 1],
because after open$ pushes OPEN the delivery of the shared handle to the
forwarder pushes the handle readyState a second time (line 263). -/
theorem claim8_counterexample :
    scenarioBObserved = [2, 0, 1, 1] ∧ scenarioBObserved ≠ [2, 0, 1] := by
  decide

/-- C8 amended: in scenario B the subscriber observes [2, 0, 1] as the first
three values, followed by one duplicate OPEN re-notification, and no error is
raised — the channel stays active and the connector live; in general the state
cell starts at 2 before any connection attempt and a subscriber arriving at a
live state stream receives the current value immediately and then every
subsequent transition. -/
theorem claim8_amended (opts : EventSourceOptions) (env : Bool)
    (b : BehaviorSubj) (vs : List Nat) :
    scenarioBObserved = [2, 0, 1, 1]
    ∧ scenarioBObserved.take 3 = [2, 0, 1]
    ∧ mapGet scenarioBFinal.eventSubjects "message"
        = some { buffer := none, status := .active }
    ∧ scenarioBFinal.sharedConn.terminal = none
    ∧ scenarioBFinal.readyStateSubject.stopped = false
    ∧ (mkReactiveEventSource opts env).readyStateSubject.value = 2
    ∧ (b.stopped = false → bsSubscriberSees b vs = b.value :: vs) := by
  refine ⟨by decide, by decide, by decide, by decide, by decide, rfl, ?_⟩
  exact bsSubscriberSees_eq b vs

/-- C8 witness: the general clause at a live subject holding value 0. -/
theorem claim8_witness :
    ({ value := 0, stopped := false, log := [2, 0] } : BehaviorSubj).stopped = false
    ∧ bsSubscriberSees { value := 0, stopped := false, log := [2, 0] } [1, 1]
        = 0 :: [1, 1] :=
  ⟨rfl, (claim8_amended defaultOptions true
    { value := 0, stopped := false, log := [2, 0] } [1, 1]).2.2.2.2.2.2 rfl⟩

/-- With a zero retry count the rxjs retry operator is the identity, so a run
never waits a backoff delay. -/
theorem runRetryGo_zero_delays (opts : EventSourceOptions)
    (hmax : opts.maxRetries = 0) (outcomes : List AttemptOutcome)
    (rands : List ℚ) (soFar : Nat) :
    (runRetryGo opts outcomes rands soFar).delays = [] := by
  match outcomes with
  | [] => rfl
  | .ok h :: rest => rfl
  | .fail e :: rest => simp [runRetryGo, hmax]

/-- The number of backoff waits of a run: one for each leading
EventSourceError failure, capped at maxRetries - 1 because the callback
rethrows at the retry count maxRetries instead of waiting again. -/
theorem runRetryGo_delays_length (opts : EventSourceOptions)
    (outcomes : List AttemptOutcome) :
    ∀ (rands : List ℚ) (soFar : Nat), soFar < opts.maxRetries →
      (runRetryGo opts outcomes rands soFar).delays.length
        = min (leadingConnectFailures outcomes) (opts.maxRetries - 1 - soFar) := by
  induction outcomes with
  | nil => intro rands soFar hso; simp [runRetryGo, leadingConnectFailures]
  | cons o rest ih =>
    intro rands soFar hso
    have hmax0 : ¬ opts.maxRetries = 0 := by omega
    match o with
    | .ok h => simp [runRetryGo, leadingConnectFailures]
    | .fail (.js m) =>
      simp [runRetryGo, hmax0, hso, retryDelayCallback, leadingConnectFailures]
    | .fail (.es e) =>
      by_cases hterm : opts.maxRetries ≤ soFar + 1
      · have hmr : opts.maxRetries - 1 - soFar = 0 := by omega
        simp [runRetryGo, hmax0, hso, retryDelayCallback, hterm,
          leadingConnectFailures, hmr]
      · have hso' : soFar + 1 < opts.maxRetries := by omega
        have := ih rands.tail (soFar + 1) hso'
        simp only [runRetryGo, if_neg hmax0, if_pos hso, retryDelayCallback,
          if_neg hterm, List.length_cons, leadingConnectFailures, this]
        omega

/-- Indexing the tail of a list shifts the index by one. -/
theorem tail_getq (l : List ℚ) (i : Nat) : l.tail.get? i = l.get? (i + 1) := by
  cases l <;> rfl

/-- The head with default is the first index with default. -/
theorem headD_eq_getq (l : List ℚ) : l.headD 0 = (l.get? 0).getD 0 := by
  cases l <;> rfl

/-- Every backoff wait of a run is exactly the corresponding uniform draw
times min(initialDelay * 2 ^ attempt, maxDelay) with the one-based attempt
count, and in particular never exceeds that bound. -/
theorem runRetryGo_delays_spec (opts : EventSourceOptions)
    (hi : 0 ≤ opts.initialDelay) (hm : 0 ≤ opts.maxDelay)
    (outcomes : List AttemptOutcome) :
    ∀ (rands : List ℚ) (soFar : Nat), (∀ r ∈ rands, 0 ≤ r ∧ r < 1) →
    ∀ i d, (runRetryGo opts outcomes rands soFar).delays.get? i = some d →
      d = ((rands.get? i).getD 0)
            * min (opts.initialDelay * 2 ^ (soFar + i + 1)) opts.maxDelay
      ∧ d ≤ min (opts.initialDelay * 2 ^ (soFar + i + 1)) opts.maxDelay := by
  induction outcomes with
  | nil => intro rands soFar hr i d hd; simp [runRetryGo] at hd
  | cons o rest ih =>
    intro rands soFar hr i d hd
    match o with
    | .ok h => simp [runRetryGo] at hd
    | .fail (.js m) =>
      by_cases hmax0 : opts.maxRetries = 0
      · simp [runRetryGo, hmax0] at hd
      · by_cases hso : soFar < opts.maxRetries
        · simp [runRetryGo, hmax0, hso, retryDelayCallback] at hd
        · simp [runRetryGo, hmax0, hso] at hd
    | .fail (.es e) =>
      by_cases hmax0 : opts.maxRetries = 0
      · simp [runRetryGo, hmax0] at hd
      · by_cases hso : soFar < opts.maxRetries
        · by_cases hterm : opts.maxRetries ≤ soFar + 1
          · simp [runRetryGo, hmax0, hso, retryDelayCallback, hterm] at hd
          · have hbase0 : 0 ≤ min (opts.initialDelay * 2 ^ (soFar + 1)) opts.maxDelay :=
              le_min (mul_nonneg hi (by positivity)) hm
            match i with
            | 0 =>
              simp only [runRetryGo, if_neg hmax0, if_pos hso, retryDelayCallback,
                if_neg hterm, List.get?_cons_zero, Option.some.injEq] at hd
              subst hd
              rw [headD_eq_getq] at *
              constructor
              · simp
              · cases hrand : rands with
                | nil =>
                  simp only [hrand, List.get?_nil, Option.getD_none, zero_mul]
                  exact hbase0
                | cons r rs =>
                  have hrr := hr r (by rw [hrand]; exact List.mem_cons_self r rs)
                  simp only [hrand, List.get?_cons_zero, Option.getD_some]
                  exact mul_le_of_le_one_left hbase0 (le_of_lt hrr.2)
            | Nat.succ j =>
              simp only [runRetryGo, if_neg hmax0, if_pos hso, retryDelayCallback,
                if_neg hterm, List.get?_cons_succ] at hd
              have hrt : ∀ r ∈ rands.tail, 0 ≤ r ∧ r < 1 :=
                fun r hrr => hr r (List.mem_of_mem_tail hrr)
              have := ih rands.tail (soFar + 1) hrt j d hd
              rw [tail_getq] at this
              have harith : soFar + 1 + j + 1 = soFar + (j + 1) + 1 := by omega
              rw [harith] at this
              exact this
        · simp [runRetryGo, hmax0, hso] at hd

/-- One step of the retried pipeline in the waiting branch: a CONNECTING
failure strictly before the last allowed retry waits the jittered delay,
pushes CONNECTING, and resubscribes. -/
theorem runRetryGo_cons_retry (opts : EventSourceOptions) (e : EventSourceError)
    (rest : List AttemptOutcome) (rands : List ℚ) (soFar : Nat)
    (hmax0 : ¬ opts.maxRetries = 0) (hso : soFar < opts.maxRetries)
    (hterm : ¬ opts.maxRetries ≤ soFar + 1) :
    runRetryGo opts (.fail (.es e) :: rest) rands soFar
      = { delays :=
            (rands.headD 0 * min (opts.initialDelay * 2 ^ (soFar + 1)) opts.maxDelay)
              :: (runRetryGo opts rest rands.tail (soFar + 1)).delays,
          stateEmits := 0 :: (runRetryGo opts rest rands.tail (soFar + 1)).stateEmits,
          result := (runRetryGo opts rest rands.tail (soFar + 1)).result } := by
  simp [runRetryGo, hmax0, hso, retryDelayCallback, hterm]

/-- One step of the retried pipeline in the rethrow branch: a CONNECTING
failure at the last allowed retry count pushes CLOSED, rethrows the wrapped
error with the default attempt of -1, and finalize pushes CLOSED again. -/
theorem runRetryGo_cons_term (opts : EventSourceOptions) (e : EventSourceError)
    (rest : List AttemptOutcome) (rands : List ℚ) (soFar : Nat)
    (hmax0 : ¬ opts.maxRetries = 0) (hso : soFar < opts.maxRetries)
    (hterm : opts.maxRetries ≤ soFar + 1) :
    runRetryGo opts (.fail (.es e) :: rest) rands soFar
      = { delays := [], stateEmits := [2, 2],
          result := .failure (.es (mkEventSourceError e.message)) } := by
  simp [runRetryGo, hmax0, hso, retryDelayCallback, hterm]

/-- Exhausting the retries: when every attempt fails with an EventSourceError
and the remaining failures reach maxRetries, the run ends in the wrapped
terminal error with the default attempt of -1, after one backoff wait per
failure except the last, pushing CONNECTING before each wait and CLOSED twice
at the end, once by the callback and once by finalize. -/
theorem runRetryGo_exhaust (opts : EventSourceOptions) (e : EventSourceError) :
    ∀ (k soFar : Nat) (rands : List ℚ), 1 ≤ k → soFar + k = opts.maxRetries →
      (runRetryGo opts (List.replicate k (.fail (.es e))) rands soFar).result
          = .failure (.es (mkEventSourceError e.message))
      ∧ (runRetryGo opts (List.replicate k (.fail (.es e))) rands soFar).delays.length
          = k - 1
      ∧ (runRetryGo opts (List.replicate k (.fail (.es e))) rands soFar).stateEmits
          = List.replicate (k - 1) 0 ++ [2, 2] := by
  intro k
  induction k with
  | zero => intro soFar rands h1 h2; exact absurd h1 (by omega)
  | succ k ihk =>
    intro soFar rands h1 h2
    have hmax0 : ¬ opts.maxRetries = 0 := by omega
    have hso : soFar < opts.maxRetries := by omega
    by_cases hk0 : k = 0
    · subst hk0
      have hterm : opts.maxRetries ≤ soFar + 1 := by omega
      rw [List.replicate_succ, runRetryGo_cons_term opts e _ rands soFar hmax0 hso hterm]
      simp
    · obtain ⟨j, rfl⟩ : ∃ j, k = j + 1 := ⟨k - 1, by omega⟩
      have hterm : ¬ opts.maxRetries ≤ soFar + 1 := by omega
      have hrec := ihk (soFar + 1) rands.tail (by omega) (by omega)
      rw [List.replicate_succ, runRetryGo_cons_retry opts e _ rands soFar hmax0 hso hterm]
      refine ⟨hrec.1, ?_, ?_⟩
      · simp only [List.length_cons, hrec.2.1]
        omega
      · simp only [hrec.2.2]
        simp [List.replicate_succ]

/-- A terminated shared connector replays its buffer and its stored terminal
notification to any later subscriber, with no state change. -/
theorem subscribeShared_of_terminal (s : ReactiveEventSource)
    {tm : Option ErrPayload} (h : s.sharedConn.terminal = some tm) :
    subscribeShared s = (s, s.sharedConn.buffer.toList, some tm) := by
  unfold subscribeShared
  rw [h]

/-- C4: the full-jitter backoff contract of the retry pipeline. A run performs
at most maxRetries backoff waits; with at least one allowed retry it waits
exactly once per leading CONNECTING failure, capped at maxRetries - 1; with
maxRetries zero it never waits; and the i-th wait equals the i-th uniform draw
times min(initialDelay * 2 ^ (i + 1), maxDelay) — the one-based retry count of
the rxjs delay callback — and so never exceeds that bound. -/
theorem claim4_full_jitter_backoff (opts : EventSourceOptions)
    (outcomes : List AttemptOutcome) (rands : List ℚ)
    (hr : ∀ r ∈ rands, 0 ≤ r ∧ r < 1)
    (hi : 0 ≤ opts.initialDelay) (hm : 0 ≤ opts.maxDelay) :
    (runRetry opts outcomes rands).delays.length ≤ opts.maxRetries
    ∧ (1 ≤ opts.maxRetries →
        (runRetry opts outcomes rands).delays.length
          = min (leadingConnectFailures outcomes) (opts.maxRetries - 1))
    ∧ (opts.maxRetries = 0 → (runRetry opts outcomes rands).delays = [])
    ∧ (∀ i d, (runRetry opts outcomes rands).delays.get? i = some d →
        d = ((rands.get? i).getD 0)
              * min (opts.initialDelay * 2 ^ (i + 1)) opts.maxDelay
        ∧ d ≤ min (opts.initialDelay * 2 ^ (i + 1)) opts.maxDelay) := by
  refine ⟨?_, ?_, ?_, ?_⟩
  · by_cases h0 : opts.maxRetries = 0
    · rw [runRetry, runRetryGo_zero_delays opts h0]
      simp
    · have h1 : 0 < opts.maxRetries := by omega
      rw [runRetry, runRetryGo_delays_length opts outcomes rands 0 h1]
      omega
  · intro h1
    rw [runRetry, runRetryGo_delays_length opts outcomes rands 0 (by omega)]
    simp
  · intro h0
    exact runRetryGo_zero_delays opts h0 outcomes rands 0
  · intro i d hd
    have := runRetryGo_delays_spec opts hi hm outcomes rands 0 hr i d hd
    simpa using this

/-- C4 witness: with two allowed retries, a first CONNECTING failure followed
by a success waits once, within the bound. -/
theorem claim4_witness :
    (∀ r ∈ [(1:ℚ)/2], 0 ≤ r ∧ r < 1)
    ∧ (0:ℚ) ≤ ({ defaultOptions with maxRetries := 2 } : EventSourceOptions).initialDelay
    ∧ (runRetry { defaultOptions with maxRetries := 2 }
        [.fail (.es (mkEventSourceError "Initial connection failed")),
         .ok { readyState := 1 }] [(1:ℚ)/2]).delays.length ≤ 2 :=
  ⟨by intro r hr; rw [List.mem_singleton] at hr; subst hr; constructor <;> norm_num,
   by norm_num [defaultOptions],
    (claim4_full_jitter_backoff { defaultOptions with maxRetries := 2 }
      [.fail (.es (mkEventSourceError "Initial connection failed")),
       .ok { readyState := 1 }] [(1:ℚ)/2]
      (by intro r hr; rw [List.mem_singleton] at hr; subst hr; constructor <;> norm_num)
      (by norm_num [defaultOptions]) (by norm_num [defaultOptions])).1⟩

/-- A forwarder subscribed to an already errored shared connector forwards the
stored error straight into its channel subject. -/
theorem setupEventListener_errored (s : ReactiveEventSource) (t : String)
    (e : ErrPayload) (hterm : s.sharedConn.terminal = some (some e)) :
    (setupEventListener s t).eventSubjects
      = updateChannel s.eventSubjects t (errorSubj · e) := by
  unfold setupEventListener
  rw [subscribeShared_of_terminal s hterm]
  rfl

/-- Requesting a channel that does not exist yet on an instance whose shared
pipeline has already failed hands the consumer a subject errored with the
stored terminal error. -/
theorem onEvent_after_terminal_error (s : ReactiveEventSource) (t : String)
    (e : ErrPayload) (hnone : mapGet s.eventSubjects t = none)
    (hterm : s.sharedConn.terminal = some (some e)) :
    (onEvent s t).2.status = .errored e := by
  unfold onEvent
  rw [hnone]
  show ((mapGet (setupEventListener
      { s with eventSubjects :=
          mapSet s.eventSubjects t { buffer := none, status := .active } }
      t).eventSubjects t).getD { buffer := none, status := .active }).status
    = SubjStatus.errored e
  rw [setupEventListener_errored
      { s with eventSubjects :=
          mapSet s.eventSubjects t { buffer := none, status := .active } }
      t e hterm]
  show ((mapGet (updateChannel
      (mapSet s.eventSubjects t { buffer := none, status := .active }) t
      (errorSubj · e)) t).getD { buffer := none, status := .active }).status
    = SubjStatus.errored e
  rw [mapGet_updateChannel_self, mapGet_mapSet_self]
  rfl

/-- C3 counterexample: with maxRetries = 0 an immediate CONNECTING-state error
does not yield an Unrecoverable error carrying attempt 0 — the rxjs retry
operator with count 0 is the identity, so the pipeline fails with the original
EventSourceError whose attempt field is -1 (readyState still becomes 2 through
finalize). -/
theorem claim3_counterexample :
    (runRetry { defaultOptions with maxRetries := 0 }
        [.fail (.es (mkEventSourceError "Initial connection failed"))] [])
      = { delays := [], stateEmits := [2],
          result := .failure (.es (mkEventSourceError "Initial connection failed")) }
    ∧ (mkEventSourceError "Initial connection failed").attempt = -1
    ∧ (mkEventSourceError "Initial connection failed").attempt ≠ 0 := by
  refine ⟨rfl, rfl, by decide⟩

/-- C3 amended: when the retry count reaches maxRetries on a fatal CONNECTING
failure, the pipeline fails terminally with a fresh EventSourceError that
re-wraps the formatted message of the original and leaves the attempt field at
its default -1 rather than the attempt count; exactly maxRetries - 1 backoff
waits precede it, so no further retry happens; CONNECTING is pushed before
each wait and CLOSED twice at the end; with maxRetries = 0 the original error
itself (attempt -1) is the terminal failure after pushing CLOSED once. A
terminal pipeline error reaches every current channel subject as a stream
error, and a channel requested after the failure is handed to its consumer
already errored with the same terminal error. -/
theorem claim3_amended (opts : EventSourceOptions) (e : EventSourceError)
    (rands : List ℚ) (s : ReactiveEventSource) (e' : ErrPayload) (t t' : String) :
    (1 ≤ opts.maxRetries →
      (runRetry opts (List.replicate opts.maxRetries (.fail (.es e))) rands).result
          = .failure (.es (mkEventSourceError e.message))
      ∧ (runRetry opts (List.replicate opts.maxRetries (.fail (.es e)))
            rands).delays.length = opts.maxRetries - 1
      ∧ (runRetry opts (List.replicate opts.maxRetries (.fail (.es e))) rands).stateEmits
          = List.replicate (opts.maxRetries - 1) 0 ++ [2, 2])
    ∧ (opts.maxRetries = 0 →
        runRetry opts [.fail (.es e)] rands
          = { delays := [], stateEmits := [2], result := .failure (.es e) })
    ∧ (∀ c, mapGet s.eventSubjects t = some c → c.status = .active →
        mapGet (pipelineFail s e').eventSubjects t
          = some { c with status := .errored e' })
    ∧ (mapGet s.eventSubjects t' = none →
        (onEvent (pipelineFail s e') t').2.status = .errored e')
    ∧ (pipelineFail s e').readyStateSubject = bsNext s.readyStateSubject 2 := by
  refine ⟨?_, ?_, ?_, ?_, rfl⟩
  · intro h1
    exact runRetryGo_exhaust opts e opts.maxRetries 0 rands h1 (by omega)
  · intro h0
    simp [runRetry, runRetryGo, h0]
  · intro c hc hact
    show mapGet (s.eventSubjects.map (fun p => (p.1, errorSubj p.2 e'))) t = _
    rw [mapGet_errorAll, hc]
    simp [errorSubj, hact]
  · intro ht'
    have hnone : mapGet (pipelineFail s e').eventSubjects t' = none := by
      show mapGet (s.eventSubjects.map (fun p => (p.1, errorSubj p.2 e'))) t' = none
      rw [mapGet_errorAll, ht']
      rfl
    exact onEvent_after_terminal_error (pipelineFail s e') t' e' hnone rfl

/-- C3 witness: with two allowed retries and two CONNECTING failures the
pipeline ends in the re-wrapped error after one wait; with zero retries the
original error passes through; and a terminal pipeline error reaches the
existing message channel as its stream error. -/
theorem claim3_witness :
    (1 ≤ ({ defaultOptions with maxRetries := 2 } : EventSourceOptions).maxRetries)
    ∧ (runRetry { defaultOptions with maxRetries := 2 }
        (List.replicate 2 (.fail (.es (mkEventSourceError "Initial connection failed"))))
        [0, 0]).result
        = .failure (.es (mkEventSourceError
            (mkEventSourceError "Initial connection failed").message))
    ∧ runRetry { defaultOptions with maxRetries := 0 }
        [.fail (.es (mkEventSourceError "Initial connection failed"))] [0, 0]
        = { delays := [], stateEmits := [2],
            result := .failure (.es (mkEventSourceError "Initial connection failed")) }
    ∧ mapGet (pipelineFail openedWithErrorChannel
          (.es (mkEventSourceError "boom"))).eventSubjects "message"
        = some { buffer := none,
                 status := .errored (.es (mkEventSourceError "boom")) }
    ∧ (onEvent (pipelineFail openedWithErrorChannel
          (.es (mkEventSourceError "boom"))) "update").2.status
        = .errored (.es (mkEventSourceError "boom")) :=
  ⟨by decide,
   ((claim3_amended { defaultOptions with maxRetries := 2 }
      (mkEventSourceError "Initial connection failed") [0, 0]
      openedWithErrorChannel (.es (mkEventSourceError "boom"))
      "message" "update").1 (by decide)).1,
   (claim3_amended { defaultOptions with maxRetries := 0 }
      (mkEventSourceError "Initial connection failed") [0, 0]
      openedWithErrorChannel (.es (mkEventSourceError "boom"))
      "message" "update").2.1 rfl,
   (claim3_amended { defaultOptions with maxRetries := 2 }
      (mkEventSourceError "Initial connection failed") [0, 0]
      openedWithErrorChannel (.es (mkEventSourceError "boom"))
      "message" "update").2.2.1 { buffer := none, status := .active }
      (by decide) (by decide),
   (claim3_amended { defaultOptions with maxRetries := 2 }
      (mkEventSourceError "Initial connection failed") [0, 0]
      openedWithErrorChannel (.es (mkEventSourceError "boom"))
      "message" "update").2.2.2.1 (by decide)⟩
